import Mathlib

/-!
Shallow embedding of the goioc/di IoC container (di.go, 2021 revision).

Go maps are modelled as association lists with map-like lookup/overwrite
helpers; a lookup that misses yields the Go zero value where the source
relies on it (empty string for scopes, 0 for chain counters).  The Go type
`reflect.Type` is modelled by `GoType`: a kind, the struct fields of its
pointee (with their `di.inject` / `di.optional` / `di.scope` tags), a type
identity used for `AssignableTo`, and flags for the optional capabilities
the source probes via `Implements` (`InitializingBean`, `io.Closer`,
`ContextAwareBean`).  Instances are addresses paired with their runtime
type; injected field values live in an explicit heap keyed by address.
Factories are modelled by the data the container observes about them: an
error outcome or a produced value of a given type (fresh address per call);
the state counts invocations.  The mutually recursive resolution functions
take a fuel argument; `Res.out` marks fuel exhaustion and never occurs at
the concrete configurations used below.
-/

set_option linter.unusedVariables false

namespace DI

/-- Go `reflect.Kind`, restricted to the kinds the container distinguishes. -/
inductive Kind where
  | ptr
  | iface
  | slice
  | mapk
  | strk
  | intk
deriving DecidableEq, Repr

/-- One struct field of a bean type: its tags and structural kind.
`injectTag`/`scopeTag` model `Tag.Lookup` (present vs absent, value may be
empty), `optTag` models `Tag.Get` (absent becomes the empty string).
`tyId` is the identity of the field type, `elemTyId`/`elemKind` those of
the element type for slice/map fields. -/
structure Field where
  injectTag : Option String
  optTag : String
  scopeTag : Option String
  kind : Kind
  tyId : Nat
  elemKind : Kind
  elemTyId : Nat
deriving DecidableEq, Repr

/-- A `reflect.Type` as the container observes it: identity, kind, the
fields of `Elem()` (meaningful for pointer-to-struct types), the ids of
interface types it is assignable to, and capability flags with the
deterministic outcomes of the corresponding method calls. -/
structure GoType where
  id : Nat
  kind : Kind
  fields : List Field
  impls : List Nat
  hasPostConstruct : Bool
  postConstructErr : Option String
  hasCloser : Bool
  closeErr : Option String
  hasSetContext : Bool
deriving DecidableEq, Repr

/-- Zero value stand-in for a missing `reflect.Type` map entry. -/
def zeroType : GoType :=
  ⟨0, Kind.iface, [], [], false, none, false, none, false⟩

/-- A live object: its address (identity) and runtime type. -/
structure Instance where
  addr : Nat
  ty : GoType
deriving DecidableEq, Repr

/-- The untyped nil interface returned by a missing map entry. -/
def nilInstance : Instance := ⟨0, zeroType⟩

/-- Value stored in an injectable field. -/
inductive FieldVal where
  | unset
  | ref (v : Instance)
  | sliceV (vs : List (Option Instance))
  | mapV (vs : List (String × Instance))
deriving DecidableEq, Repr

/-- What the container observes of a registered factory closure: either it
returns an error, or it produces a fresh value of `resultTy`. -/
structure FactorySpec where
  err : Option String
  resultTy : GoType
deriving DecidableEq, Repr

/-- Association-list lookup (first match), modelling Go map access. -/
def lookupA {κ α : Type} [DecidableEq κ] : List (κ × α) → κ → Option α
  | [], _ => none
  | (k, v) :: rest, key => if k = key then some v else lookupA rest key

/-- Go map read with zero value `d` on a miss. -/
def getDA {κ α : Type} [DecidableEq κ] (l : List (κ × α)) (key : κ) (d : α) : α :=
  (lookupA l key).getD d

/-- The comma-ok presence test of a Go map read. -/
def memA {κ α : Type} [DecidableEq κ] (l : List (κ × α)) (key : κ) : Bool :=
  (lookupA l key).isSome

/-- Go map write: overwrite the existing entry or append a new one. -/
def upsertA {κ α : Type} [DecidableEq κ] : List (κ × α) → κ → α → List (κ × α)
  | [], key, v => [(key, v)]
  | (k, w) :: rest, key, v =>
      if k = key then (k, v) :: rest else (k, w) :: upsertA rest key v

/-- The package-level mutable state of di.go, plus observation fields
(`nextAddr`, `factoryCalls`, `closedCalls`, `loggedCloseErrors`, `heap`)
that record allocation identity, factory invocations, `Close` calls and
field stores. -/
structure St where
  containerInitialized : Bool
  beans : List (String × GoType)
  beanFactories : List (String × FactorySpec)
  scopes : List (String × String)
  singletonInstances : List (String × Instance)
  userCreatedInstances : List (String × Bool)
  beanPostprocessors : List (Nat × List (Option String))
  heap : List (Nat × List FieldVal)
  nextAddr : Nat
  factoryCalls : List (String × Nat)
  closedCalls : List Nat
  loggedCloseErrors : List String
deriving DecidableEq, Repr

/-- Fresh container state at process start. -/
def initialState : St :=
  { containerInitialized := false
    beans := []
    beanFactories := []
    scopes := []
    singletonInstances := []
    userCreatedInstances := []
    beanPostprocessors := []
    heap := []
    nextAddr := 1
    factoryCalls := []
    closedCalls := []
    loggedCloseErrors := [] }

/-- Scope literal `Singleton`. -/
def Singleton : String := "singleton"

/-- Scope literal `Prototype`. -/
def Prototype : String := "prototype"

/-- Scope literal `Request`. -/
def Request : String := "request"

/-- Error message constant `unsupportedDependencyType`. -/
def unsupportedDependencyType : String :=
  "unsupported dependency type: all injections must be done by pointer, interface, slice or map"

/-- Error message constant `requestScopedBeansCantBeInjected`. -/
def requestScopedBeansCantBeInjected : String :=
  "request-scoped beans can\x27t be injected: they can only be retrieved from the web-context"

/-- Result of a fuel-consuming operation; `out` marks fuel exhaustion. -/
inductive Res (α : Type) where
  | ok : α → Res α
  | err : String → Res α
  | out : Res α
deriving DecidableEq, Repr

/-- The per-resolution occurrence-counting map (`map[string]int`). -/
abbrev Chain := List (String × Nat)

/-- Go `strconv.ParseBool`. -/
def parseBool (s : String) : Option Bool :=
  if s = "1" ∨ s = "t" ∨ s = "T" ∨ s = "true" ∨ s = "TRUE" ∨ s = "True" then some true
  else if s = "0" ∨ s = "f" ∨ s = "F" ∨ s = "false" ∨ s = "FALSE" ∨ s = "False" then some false
  else none

/-- Go `isOptional`: parse the `di.optional` tag; an absent tag is the empty
string and yields `false`, a present unparseable tag is an error. -/
def isOptional (field : Field) : Except String Bool :=
  match parseBool field.optTag with
  | some value => Except.ok value
  | none =>
      if field.optTag = "" then Except.ok false
      else Except.error ("invalid di.optional value: " ++ field.optTag)

/-- Go `getScope`: the first field carrying a `di.scope` tag decides the
scope; no tag means `Singleton`; an unknown literal is an error. -/
def getScope (bean : GoType) : Except String String :=
  match bean.fields.findSome? (fun field => field.scopeTag) with
  | none => Except.ok Singleton
  | some s =>
      if s = Singleton then Except.ok Singleton
      else if s = Prototype then Except.ok Prototype
      else if s = Request then Except.ok Request
      else Except.error ("unsupported scope: " ++ s)

/-- Go `beanType.AssignableTo(fieldType)`: identical type or one of the
interfaces the bean type implements. -/
def assignableTo (t : GoType) (fieldTyId : Nat) : Bool :=
  t.id = fieldTyId || t.impls.contains fieldTyId

/-- Go `findInjectionCandidates`: every registered bean whose type is
assignable to the field type. -/
def findInjectionCandidates (st : St) (fieldTyId : Nat) : List String :=
  (st.beans.filter (fun p => assignableTo p.2 fieldTyId)).map (fun p => p.1)

/-- Go `isBeanRegistered`. -/
def isBeanRegistered (st : St) (beanID : String) : Bool :=
  memA st.beans beanID || memA st.beanFactories beanID

/-- The per-field validation loop of `RegisterBean`: any field carrying a
`di.inject` tag must be of pointer, interface, slice or map kind. -/
def validateInjectFields : List Field → Option String
  | [] => none
  | field :: rest =>
      if field.injectTag.isNone then validateInjectFields rest
      else if field.kind ≠ Kind.ptr ∧ field.kind ≠ Kind.iface ∧
              field.kind ≠ Kind.slice ∧ field.kind ≠ Kind.mapk then
        some unsupportedDependencyType
      else validateInjectFields rest

/-- Go `RegisterBean`.  Returns the `(overwritten, err)` pair and the new
state. -/
def RegisterBean (st : St) (beanID : String) (beanType : GoType) :
    (Bool × Option String) × St :=
  if st.containerInitialized then
    ((false, some "container is already initialized: can\x27t register new bean"), st)
  else if beanType.kind ≠ Kind.ptr then
    ((false, some "bean type must be a pointer"), st)
  else
    let ok := memA st.beans beanID
    match getScope beanType with
    | Except.error e => ((false, some e), st)
    | Except.ok beanScope =>
        match validateInjectFields beanType.fields with
        | some e => ((false, some e), st)
        | none =>
            ((ok, none),
              { st with beans := upsertA st.beans beanID beanType
                        scopes := upsertA st.scopes beanID beanScope })

/-- Go `RegisterBeanInstance`: the caller supplies a pre-built instance; the
registered type is the instance runtime type and the scope is forced to
`Singleton`. -/
def RegisterBeanInstance (st : St) (beanID : String) (beanInstance : Instance) :
    (Bool × Option String) × St :=
  if st.containerInitialized then
    ((false, some "container is already initialized: can\x27t register new bean"), st)
  else if beanInstance.ty.kind ≠ Kind.ptr then
    ((false, some "bean instance must be a pointer"), st)
  else
    let ok := memA st.beans beanID
    ((ok, none),
      { st with beans := upsertA st.beans beanID beanInstance.ty
                scopes := upsertA st.scopes beanID Singleton
                singletonInstances := upsertA st.singletonInstances beanID beanInstance
                userCreatedInstances := upsertA st.userCreatedInstances beanID true })

/-- Go `RegisterBeanFactory`.  Note: the source computes `overwritten` from
the `beans` table (which this function never writes) and performs no
validation of `beanScope`. -/
def RegisterBeanFactory (st : St) (beanID : String) (beanScope : String)
    (beanFactory : FactorySpec) : (Bool × Option String) × St :=
  if st.containerInitialized then
    ((false, some "container is already initialized: can\x27t register new bean factory"), st)
  else
    let ok := memA st.beans beanID
    ((ok, none),
      { st with scopes := upsertA st.scopes beanID beanScope
                beanFactories := upsertA st.beanFactories beanID beanFactory })

/-- Go `RegisterBeanPostprocessor`: appends to the per-type list.  A
postprocessor closure is modelled by its observable outcome. -/
def RegisterBeanPostprocessor (st : St) (beanTypeId : Nat)
    (postprocessor : Option String) : Option String × St :=
  if st.containerInitialized then
    (some "container is already initialized: can\x27t register bean postprocessor", st)
  else
    (none,
      { st with beanPostprocessors :=
          (upsertA st.beanPostprocessors beanTypeId
            (getDA st.beanPostprocessors beanTypeId [] ++ [postprocessor])) })

/-- Allocate a fresh object of type `ty`: a new address whose injectable
fields (for a pointer-to-struct type) start zeroed. -/
def heapAlloc (st : St) (ty : GoType) : Instance × St :=
  let inst : Instance := ⟨st.nextAddr, ty⟩
  let flds := if ty.kind = Kind.ptr then List.replicate ty.fields.length FieldVal.unset else []
  (inst, { st with nextAddr := st.nextAddr + 1
                   heap := upsertA st.heap st.nextAddr flds })

/-- Overwrite field `i` of the object at `addr`. -/
def heapSetField (st : St) (addr i : Nat) (v : FieldVal) : St :=
  { st with heap := upsertA st.heap addr ((getDA st.heap addr []).set i v) }

/-- Write slot `j` of the slice stored in field `i` of the object at
`addr` (`fieldToInject.Index(j).Set`). -/
def heapSetSliceIdx (st : St) (addr i j : Nat) (v : Instance) : St :=
  let flds := getDA st.heap addr []
  let newFld :=
    match flds.getD i FieldVal.unset with
    | FieldVal.sliceV vs => FieldVal.sliceV (vs.set j (some v))
    | fv => fv
  { st with heap := upsertA st.heap addr (flds.set i newFld) }

/-- Write key `key` of the map stored in field `i` of the object at
`addr` (`fieldToInject.SetMapIndex`). -/
def heapSetMapKey (st : St) (addr i : Nat) (key : String) (v : Instance) : St :=
  let flds := getDA st.heap addr []
  let newFld :=
    match flds.getD i FieldVal.unset with
    | FieldVal.mapV vs => FieldVal.mapV (upsertA vs key v)
    | fv => fv
  { st with heap := upsertA st.heap addr (flds.set i newFld) }

/-- Invoke a registered factory: count the call, then either propagate its
error or check that the produced value is a pointer. -/
def callFactory (st : St) (beanID : String) (beanFactory : FactorySpec) :
    Except String Instance × St :=
  let st := { st with factoryCalls :=
                (upsertA st.factoryCalls beanID (getDA st.factoryCalls beanID 0 + 1)) }
  match beanFactory.err with
  | some e => (Except.error e, st)
  | none =>
      let (inst, st) := heapAlloc st beanFactory.resultTy
      if beanFactory.resultTy.kind ≠ Kind.ptr then
        (Except.error "bean factory must return pointer", st)
      else (Except.ok inst, st)

/-- Go `createInstance`: a registered factory wins, otherwise reflectively
allocate a zero value of the registered bean type. -/
def createInstance (st : St) (beanID : String) : Except String Instance × St :=
  match lookupA st.beanFactories beanID with
  | some beanFactory => callFactory st beanID beanFactory
  | none =>
      let ty := getDA st.beans beanID zeroType
      let (inst, st) := heapAlloc st ty
      (Except.ok inst, st)

/-- Run a list of postprocessors in order; the first error aborts. -/
def runPostprocessors : List (Option String) → Except String Unit
  | [] => Except.ok ()
  | some e :: _ => Except.error e
  | none :: rest => runPostprocessors rest

/-- Go `initializeInstance`: the `PostConstruct` hook (when the runtime type
implements `InitializingBean`) followed by the postprocessors registered
for the exact runtime type.  (The `MethodByName` miss branch of the source
is unreachable once `Implements` holds and is not modelled.) -/
def initializeInstance (st : St) (beanID : String) (inst : Instance) :
    Except String Unit :=
  match (if inst.ty.hasPostConstruct then inst.ty.postConstructErr else none) with
  | some e => Except.error e
  | none =>
      match lookupA st.beanPostprocessors inst.ty.id with
      | none => Except.ok ()
      | some postprocessors => runPostprocessors postprocessors

/-- Go `setContext`: calls `SetContext` when the type implements
`ContextAwareBean`; it cannot fail. -/
def setContext (beanID : String) (inst : Instance) : Except String Unit :=
  Except.ok ()

mutual

/-- Go `getInstance(ctx, beanID, chain)`: singleton cache hit, cycle check on
the chain counter, then create / inject / post-construct / set context. -/
def getInstance (fuel : Nat) (st : St) (chain : Chain) (beanID : String) :
    Res Instance × St × Chain :=
  match fuel with
  | 0 => (Res.out, st, chain)
  | fuel + 1 =>
    if ¬ isBeanRegistered st beanID then
      (Res.err ("bean is not registered: " ++ beanID), st, chain)
    else if getDA st.scopes beanID "" = Singleton then
      (Res.ok (getDA st.singletonInstances beanID nilInstance), st, chain)
    else if getDA chain beanID 0 > 1 then
      (Res.err ("circular dependency detected for bean: " ++ beanID), st, chain)
    else
      let chain := upsertA chain beanID (getDA chain beanID 0 + 1)
      match createInstance st beanID with
      | (Except.error e, st) => (Res.err e, st, chain)
      | (Except.ok inst, st) =>
        let injected : Res Unit × St × Chain :=
          if memA st.beanFactories beanID then (Res.ok (), st, chain)
          else injectDependencies fuel st chain beanID inst
        match injected with
        | (Res.err e, st, chain) => (Res.err e, st, chain)
        | (Res.out, st, chain) => (Res.out, st, chain)
        | (Res.ok _, st, chain) =>
          match initializeInstance st beanID inst with
          | Except.error e => (Res.err e, st, chain)
          | Except.ok _ =>
            match setContext beanID inst with
            | Except.error e => (Res.err e, st, chain)
            | Except.ok _ => (Res.ok inst, st, chain)
termination_by structural fuel

/-- Go `injectDependencies`: walk the fields of the registered bean type of
`beanID`, wiring each `di.inject`-tagged field into `inst`. -/
def injectDependencies (fuel : Nat) (st : St) (chain : Chain) (beanID : String)
    (inst : Instance) : Res Unit × St × Chain :=
  match fuel with
  | 0 => (Res.out, st, chain)
  | fuel + 1 =>
    let instanceType := getDA st.beans beanID zeroType
    injectFields fuel st chain inst instanceType.fields.enum
termination_by structural fuel

/-- The field loop of `injectDependencies`, carrying `(index, field)`
pairs. -/
def injectFields (fuel : Nat) (st : St) (chain : Chain) (inst : Instance)
    (l : List (Nat × Field)) : Res Unit × St × Chain :=
  match fuel with
  | 0 => (Res.out, st, chain)
  | fuel + 1 =>
    match l with
    | [] => (Res.ok (), st, chain)
    | (i, field) :: rest =>
      match field.injectTag with
      | none => injectFields fuel st chain inst rest
      | some beanToInject =>
        match isOptional field with
        | Except.error e => (Res.err e, st, chain)
        | Except.ok optionalDependency =>
          match field.kind with
          | Kind.ptr | Kind.iface =>
            if beanToInject = "" then
              let candidates := findInjectionCandidates st field.tyId
              if candidates.length < 1 then
                if optionalDependency then injectFields fuel st chain inst rest
                else (Res.err "no candidates found for the injection", st, chain)
              else if candidates.length > 1 then
                (Res.err "more then one candidate found for the injection", st, chain)
              else
                injectSingle fuel st chain inst rest i optionalDependency
                  (candidates.headD "")
            else
              injectSingle fuel st chain inst rest i optionalDependency beanToInject
          | Kind.slice =>
            if field.elemKind ≠ Kind.ptr ∧ field.elemKind ≠ Kind.iface then
              (Res.err unsupportedDependencyType, st, chain)
            else
              let candidates := findInjectionCandidates st field.elemTyId
              if candidates.length < 1 then
                let st :=
                  if ¬ optionalDependency then
                    heapSetField st inst.addr i (FieldVal.sliceV [])
                  else st
                injectFields fuel st chain inst rest
              else
                let st := heapSetField st inst.addr i
                  (FieldVal.sliceV (List.replicate candidates.length none))
                injectSliceElems fuel st chain inst rest i 0 candidates
          | Kind.mapk =>
            if field.elemKind ≠ Kind.ptr ∧ field.elemKind ≠ Kind.iface then
              (Res.err unsupportedDependencyType, st, chain)
            else
              let candidates := findInjectionCandidates st field.elemTyId
              if candidates.length < 1 then
                let st :=
                  if ¬ optionalDependency then
                    heapSetField st inst.addr i (FieldVal.mapV [])
                  else st
                injectFields fuel st chain inst rest
              else
                let st := heapSetField st inst.addr i (FieldVal.mapV [])
                injectMapElems fuel st chain inst rest i candidates
          | _ => (Res.err unsupportedDependencyType, st, chain)
termination_by structural fuel

/-- Wiring of one single-reference dependency: two-value scope lookup,
unconditional Request rejection, recursive resolution, field store. -/
def injectSingle (fuel : Nat) (st : St) (chain : Chain) (inst : Instance)
    (rest : List (Nat × Field)) (i : Nat) (optionalDependency : Bool)
    (beanToInject : String) : Res Unit × St × Chain :=
  match fuel with
  | 0 => (Res.out, st, chain)
  | fuel + 1 =>
    match lookupA st.scopes beanToInject with
    | none =>
      if optionalDependency then injectFields fuel st chain inst rest
      else (Res.err "no dependency found", st, chain)
    | some beanScope =>
      if beanScope = Request then
        (Res.err requestScopedBeansCantBeInjected, st, chain)
      else
        match getInstance fuel st chain beanToInject with
        | (Res.err e, st, chain) => (Res.err e, st, chain)
        | (Res.out, st, chain) => (Res.out, st, chain)
        | (Res.ok v, st, chain) =>
          let st := heapSetField st inst.addr i (FieldVal.ref v)
          injectFields fuel st chain inst rest
termination_by structural fuel

/-- The per-candidate loop of the slice branch; an exhausted candidate
list resumes the outer field loop. -/
def injectSliceElems (fuel : Nat) (st : St) (chain : Chain) (inst : Instance)
    (rest : List (Nat × Field)) (i j : Nat) (cs : List String) :
    Res Unit × St × Chain :=
  match fuel with
  | 0 => (Res.out, st, chain)
  | fuel + 1 =>
    match cs with
    | [] => injectFields fuel st chain inst rest
    | beanToInject :: more =>
      if getDA st.scopes beanToInject "" = Request then
        (Res.err requestScopedBeansCantBeInjected, st, chain)
      else
        match getInstance fuel st chain beanToInject with
        | (Res.err e, st, chain) => (Res.err e, st, chain)
        | (Res.out, st, chain) => (Res.out, st, chain)
        | (Res.ok v, st, chain) =>
          let st := heapSetSliceIdx st inst.addr i j v
          injectSliceElems fuel st chain inst rest i (j + 1) more
termination_by structural fuel

/-- The per-candidate loop of the map branch; an exhausted candidate list
resumes the outer field loop. -/
def injectMapElems (fuel : Nat) (st : St) (chain : Chain) (inst : Instance)
    (rest : List (Nat × Field)) (i : Nat) (cs : List String) :
    Res Unit × St × Chain :=
  match fuel with
  | 0 => (Res.out, st, chain)
  | fuel + 1 =>
    match cs with
    | [] => injectFields fuel st chain inst rest
    | beanToInject :: more =>
      if getDA st.scopes beanToInject "" = Request then
        (Res.err requestScopedBeansCantBeInjected, st, chain)
      else
        match getInstance fuel st chain beanToInject with
        | (Res.err e, st, chain) => (Res.err e, st, chain)
        | (Res.out, st, chain) => (Res.out, st, chain)
        | (Res.ok v, st, chain) =>
          let st := heapSetMapKey st inst.addr i beanToInject v
          injectMapElems fuel st chain inst rest i more
termination_by structural fuel

end

/-- First pass of `createSingletonInstances`: every type-registered
Singleton bean without a user-supplied instance gets a created instance. -/
def createTypedSingletons : St → List (String × GoType) → Except String Unit × St
  | st, [] => (Except.ok (), st)
  | st, (beanID, _) :: rest =>
      if getDA st.scopes beanID "" ≠ Singleton then createTypedSingletons st rest
      else if memA st.userCreatedInstances beanID then createTypedSingletons st rest
      else
        match createInstance st beanID with
        | (Except.error e, st) => (Except.error e, st)
        | (Except.ok inst, st) =>
            createTypedSingletons
              { st with singletonInstances := upsertA st.singletonInstances beanID inst }
              rest

/-- Second pass of `createSingletonInstances`: every Singleton-scoped
factory is invoked and its result cached. -/
def createFactorySingletons : St → List (String × FactorySpec) → Except String Unit × St
  | st, [] => (Except.ok (), st)
  | st, (beanID, beanFactory) :: rest =>
      if getDA st.scopes beanID "" ≠ Singleton then createFactorySingletons st rest
      else
        match callFactory st beanID beanFactory with
        | (Except.error e, st) => (Except.error e, st)
        | (Except.ok inst, st) =>
            createFactorySingletons
              { st with singletonInstances := upsertA st.singletonInstances beanID inst }
              rest

/-- Go `createSingletonInstances`: the two passes in source order. -/
def createSingletonInstances (st : St) : Except String Unit × St :=
  match createTypedSingletons st st.beans with
  | (Except.error e, st) => (Except.error e, st)
  | (Except.ok _, st) => createFactorySingletons st st.beanFactories

/-- Loop of `injectSingletonDependencies`: skip user-created and
factory-made instances, wire the rest with a fresh chain each. -/
def injectSingletonList (fuel : Nat) : St → List (String × Instance) → Res Unit × St
  | st, [] => (Res.ok (), st)
  | st, (beanID, inst) :: rest =>
      if memA st.userCreatedInstances beanID then injectSingletonList fuel st rest
      else if memA st.beanFactories beanID then injectSingletonList fuel st rest
      else
        match injectDependencies fuel st [] beanID inst with
        | (Res.err e, st, _) => (Res.err e, st)
        | (Res.out, st, _) => (Res.out, st)
        | (Res.ok _, st, _) => injectSingletonList fuel st rest

/-- Go `injectSingletonDependencies`. -/
def injectSingletonDependencies (fuel : Nat) (st : St) : Res Unit × St :=
  injectSingletonList fuel st st.singletonInstances

/-- Loop of `initializeSingletonInstances`: run the post-construction
pipeline and context propagation on every cached instance. -/
def initializeSingletonList (st : St) : List (String × Instance) → Except String Unit
  | [] => Except.ok ()
  | (beanID, inst) :: rest =>
      match initializeInstance st beanID inst with
      | Except.error e => Except.error e
      | Except.ok _ =>
          match setContext beanID inst with
          | Except.error e => Except.error e
          | Except.ok _ => initializeSingletonList st rest

/-- Go `initializeSingletonInstances`. -/
def initializeSingletonInstances (st : St) : Except String Unit :=
  initializeSingletonList st st.singletonInstances

/-- Go `InitializeContainer`: create eager singletons, inject them, flip the
initialized flag, then run the post-construction pipeline.  An error in
either of the first two steps returns with the flag still down; an error
in the last step returns after the flag has already been raised. -/
def InitializeContainer (fuel : Nat) (st : St) : Res Unit × St :=
  if st.containerInitialized then
    (Res.err "container is already initialized: reinitialization is not supported", st)
  else
    match createSingletonInstances st with
    | (Except.error e, st) => (Res.err e, st)
    | (Except.ok _, st) =>
        match injectSingletonDependencies fuel st with
        | (Res.err e, st) => (Res.err e, st)
        | (Res.out, st) => (Res.out, st)
        | (Res.ok _, st) =>
            let st := { st with containerInitialized := true }
            match initializeSingletonInstances st with
            | Except.error e => (Res.err e, st)
            | Except.ok _ => (Res.ok (), st)

/-- Go `GetInstanceSafe`: state gate, Request-scope gate, then resolution
with a fresh chain. -/
def GetInstanceSafe (fuel : Nat) (st : St) (beanID : String) : Res Instance × St :=
  if st.containerInitialized = false then
    (Res.err "container is not initialized: can\x27t lookup instances of beans yet", st)
  else if getDA st.scopes beanID "" = Request then
    (Res.err "request-scoped beans can\x27t be retrieved directly from the container: they can only be retrieved from the web-context", st)
  else
    let (r, st, _) := getInstance fuel st [] beanID
    (r, st)

/-- Go `GetInstance` delegates to `GetInstanceSafe`; a `Res.err` result
models the panic it raises on error. -/
def GetInstance (fuel : Nat) (st : St) (beanID : String) : Res Instance × St :=
  GetInstanceSafe fuel st beanID

/-- The loop of `Close`: attempt `io.Closer` on every cached singleton,
recording the call and logging (not propagating) any error. -/
def closeInstances : St → List (String × Instance) → St
  | st, [] => st
  | st, (_, inst) :: rest =>
      if inst.ty.hasCloser then
        let st := { st with closedCalls := st.closedCalls ++ [inst.addr] }
        let st :=
          match inst.ty.closeErr with
          | some e => { st with loggedCloseErrors := st.loggedCloseErrors ++ [e] }
          | none => st
        closeInstances st rest
      else closeInstances st rest

/-- Go `resetContainerWithoutLock`: clear every registry table and lower the
initialized flag (the observation fields are outside the Go state). -/
def resetContainerWithoutLock (st : St) : St :=
  { st with containerInitialized := false
            beans := []
            beanFactories := []
            scopes := []
            singletonInstances := []
            userCreatedInstances := []
            beanPostprocessors := [] }

/-- Go `Close`: best-effort teardown followed by a full reset; it returns no
error. -/
def Close (st : St) : St :=
  resetContainerWithoutLock (closeInstances st st.singletonInstances)

/-- A pointer-to-struct type with no optional capabilities. -/
def mkPtrTy (id : Nat) (fields : List Field) : GoType :=
  { id := id, kind := Kind.ptr, fields := fields, impls := []
    hasPostConstruct := false, postConstructErr := none
    hasCloser := false, closeErr := none, hasSetContext := false }

/-- A single-reference field injecting bean `tag` by id, optionally also
carrying a `di.scope` tag. -/
def mkInjField (tag : String) (scopeTag : Option String) : Field :=
  { injectTag := some tag, optTag := "", scopeTag := scopeTag
    kind := Kind.ptr, tyId := 0, elemKind := Kind.strk, elemTyId := 0 }

/-- A plain (non-injected) field carrying only a `di.scope` tag. -/
def scopeOnlyField (s : String) : Field :=
  { injectTag := none, optTag := "", scopeTag := some s
    kind := Kind.strk, tyId := 0, elemKind := Kind.strk, elemTyId := 0 }

/-- A Prototype bean type that injects itself by id. -/
def selfRefProtoTy : GoType := mkPtrTy 10 [mkInjField "a" (some Prototype)]

/-- The same shape with Singleton scope. -/
def selfRefSingTy : GoType := mkPtrTy 10 [mkInjField "a" (some Singleton)]

/-- Initialized container holding the self-referential Prototype bean. -/
def cycSt : St := (InitializeContainer 20 (RegisterBean initialState "a" selfRefProtoTy).2).2

/-- Initialized container holding the self-referential Singleton bean. -/
def singSt : St := (InitializeContainer 20 (RegisterBean initialState "a" selfRefSingTy).2).2

/-- C10 configuration: a Prototype root `r` whose three injection-tagged
fields are three distinct sibling injection paths to the same Prototype
bean `p` (registered through a factory, so `p` itself has no
dependencies).  The dependency graph is acyclic: nothing depends on
itself, directly or indirectly. -/
def rTy : GoType :=
  mkPtrTy 30 [mkInjField "p" (some Prototype), mkInjField "p" none, mkInjField "p" none]

/-- A factory producing fresh pointers without error. -/
def okFactory : FactorySpec := ⟨none, mkPtrTy 20 []⟩

/-- C10: the registered and initialized container. -/
def c10St : St :=
  (InitializeContainer 10
    (RegisterBeanFactory (RegisterBean initialState "r" rTy).2 "p" Prototype okFactory).2).2

/-- The explicit dependency ids declared by the registered type of a bean. -/
def beanDeps (st : St) (beanID : String) : List String :=
  (getDA st.beans beanID zeroType).fields.filterMap (fun field => field.injectTag)

/-- A rank witnessing acyclicity of the C10 configuration. -/
def c10Rank (beanID : String) : Nat :=
  if beanID = "r" then 0 else if beanID = "p" then 2 else 1

/-- A Singleton bean type whose `PostConstruct` hook fails. -/
def pcBadTy : GoType :=
  { mkPtrTy 40 [] with hasPostConstruct := true, postConstructErr := some "post-construct failed" }

/-- Container with the failing-`PostConstruct` bean registered. -/
def c2St0 : St := (RegisterBean initialState "a" pcBadTy).2

/-- Container with a Singleton factory that errors at creation time. -/
def badCreateSt : St :=
  (RegisterBeanFactory initialState "f" Singleton ⟨some "factory boom", zeroType⟩).2

/-- Container with a Singleton bean whose required dependency is missing. -/
def badInjectSt : St :=
  (RegisterBean initialState "a" (mkPtrTy 41 [mkInjField "missing" none])).2

/-- A `*string`-like pointer type with no struct fields. -/
def strPtrTy : GoType := mkPtrTy 20 []

/-- Container after registering `okFactory` under id `F` (Singleton). -/
def stF0 : St := (RegisterBeanFactory initialState "F" Singleton okFactory).2

/-- The same container initialized. -/
def stF1 : St := (InitializeContainer 10 stF0).2

/-- A closeable type whose `Close` fails. -/
def closerTyBad : GoType := { mkPtrTy 70 [] with hasCloser := true, closeErr := some "close boom" }

/-- A closeable type whose `Close` succeeds. -/
def closerTyOk : GoType := { mkPtrTy 71 [] with hasCloser := true }

/-- Container caching two closeable user instances, the first of which
fails to close. -/
def c9St : St :=
  (RegisterBeanInstance
    (RegisterBeanInstance initialState "a" ⟨201, closerTyBad⟩).2 "b" ⟨202, closerTyOk⟩).2

/-- Initialized container holding a Request-scoped factory bean `x`. -/
def reqSt : St := (InitializeContainer 10 (RegisterBeanFactory initialState "x" Request okFactory).2).2

/-- Candidate type structurally matching field-type id 60 directly. -/
def candTy1 : GoType := mkPtrTy 60 [scopeOnlyField Prototype]

/-- Second candidate matching field-type id 60 through its interface list. -/
def candTy2 : GoType := { mkPtrTy 61 [scopeOnlyField Prototype] with impls := [60] }

/-- A type-based (id-less) single-reference injection field with element
type id 60; `opt` selects the `di.optional` tag value. -/
def typeField (opt : String) : Field :=
  { injectTag := some "", optTag := opt, scopeTag := none
    kind := Kind.ptr, tyId := 60, elemKind := Kind.strk, elemTyId := 0 }

/-- Registry with exactly one structurally-assignable candidate for
field-type id 60. -/
def cand1St : St := (RegisterBean initialState "c1" candTy1).2

/-- Registry with two structurally-assignable candidates for field-type
id 60. -/
def cand2St : St := (RegisterBean (RegisterBean initialState "c1" candTy1).2 "c2" candTy2).2

/-- An arbitrary already-initialized state used as witness input. -/
def initializedState : St := { initialState with containerInitialized := true }

/-- The registry/lifecycle portion of the state: everything except the
allocation and observation bookkeeping.  The resolution functions never
change it. -/
def core (st : St) :
    Bool × List (String × GoType) × List (String × FactorySpec) ×
    List (String × String) × List (String × Instance) × List (String × Bool) ×
    List (Nat × List (Option String)) :=
  (st.containerInitialized, st.beans, st.beanFactories, st.scopes,
    st.singletonInstances, st.userCreatedInstances, st.beanPostprocessors)

/-- Pointwise order on resolution chains: no counter ever decreases. -/
def chainLe (c₁ c₂ : Chain) : Prop :=
  ∀ k, getDA c₁ k 0 ≤ getDA c₂ k 0

theorem lookupA_upsertA {κ α : Type} [DecidableEq κ] (l : List (κ × α)) (key k : κ) (v : α) :
    lookupA (upsertA l key v) k = if key = k then some v else lookupA l k := by
  induction l with
  | nil => simp [upsertA, lookupA]
  | cons p rest ih =>
      obtain ⟨k', w⟩ := p
      by_cases h1 : k' = key
      · subst h1
        by_cases h2 : k' = k <;> simp [upsertA, lookupA, h2]
      · by_cases h2 : k' = k
        · subst h2
          have : ¬ key = k' := fun h => h1 h.symm
          simp [upsertA, lookupA, h1, this]
        · simp [upsertA, lookupA, h1, h2, ih]

theorem getDA_upsertA {κ α : Type} [DecidableEq κ] (l : List (κ × α)) (key k : κ) (v d : α) :
    getDA (upsertA l key v) k d = if key = k then v else getDA l k d := by
  simp [getDA, lookupA_upsertA]
  split <;> rfl

theorem chainLe_refl (c : Chain) : chainLe c c := fun _ => le_refl _

theorem chainLe_trans {a b c : Chain} (h1 : chainLe a b) (h2 : chainLe b c) : chainLe a c :=
  fun k => le_trans (h1 k) (h2 k)

theorem chainLe_bump (c : Chain) (beanID : String) :
    chainLe c (upsertA c beanID (getDA c beanID 0 + 1)) := by
  intro k
  rw [getDA_upsertA]
  split
  · next h => subst h; exact Nat.le_succ _
  · exact le_refl _

theorem core_heapAlloc (st : St) (ty : GoType) : core (heapAlloc st ty).2 = core st := rfl

theorem core_heapSetField (st : St) (addr i : Nat) (v : FieldVal) :
    core (heapSetField st addr i v) = core st := rfl

theorem core_heapSetSliceIdx (st : St) (addr i j : Nat) (v : Instance) :
    core (heapSetSliceIdx st addr i j v) = core st := rfl

theorem core_heapSetMapKey (st : St) (addr i : Nat) (key : String) (v : Instance) :
    core (heapSetMapKey st addr i key v) = core st := rfl

theorem core_callFactory (st : St) (beanID : String) (f : FactorySpec) :
    core (callFactory st beanID f).2 = core st := by
  unfold callFactory
  cases f.err with
  | none => simp [heapAlloc]; split <;> rfl
  | some e => rfl

theorem core_createInstance (st : St) (beanID : String) :
    core (createInstance st beanID).2 = core st := by
  unfold createInstance
  cases h : lookupA st.beanFactories beanID with
  | none => rfl
  | some f => simpa using core_callFactory st beanID f

/-- Invariant of the whole resolution recursion: the registry portion of
the state is untouched and chain counters never decrease (the chain is
only ever incremented, never rolled back when a subtree completes). -/
theorem resolveInv : ∀ fuel : Nat,
    (∀ st chain beanID,
        core (getInstance fuel st chain beanID).2.1 = core st ∧
        chainLe chain (getInstance fuel st chain beanID).2.2) ∧
    (∀ st chain beanID inst,
        core (injectDependencies fuel st chain beanID inst).2.1 = core st ∧
        chainLe chain (injectDependencies fuel st chain beanID inst).2.2) ∧
    (∀ st chain inst l,
        core (injectFields fuel st chain inst l).2.1 = core st ∧
        chainLe chain (injectFields fuel st chain inst l).2.2) ∧
    (∀ st chain inst rest i opt b,
        core (injectSingle fuel st chain inst rest i opt b).2.1 = core st ∧
        chainLe chain (injectSingle fuel st chain inst rest i opt b).2.2) ∧
    (∀ st chain inst rest i j cs,
        core (injectSliceElems fuel st chain inst rest i j cs).2.1 = core st ∧
        chainLe chain (injectSliceElems fuel st chain inst rest i j cs).2.2) ∧
    (∀ st chain inst rest i cs,
        core (injectMapElems fuel st chain inst rest i cs).2.1 = core st ∧
        chainLe chain (injectMapElems fuel st chain inst rest i cs).2.2) := by
  intro fuel
  induction fuel with
  | zero =>
      refine ⟨?_, ?_, ?_, ?_, ?_, ?_⟩ <;>
        intros <;> exact ⟨rfl, chainLe_refl _⟩
  | succ fuel ih =>
      obtain ⟨ihGet, ihDeps, ihFields, ihSingle, ihSlice, ihMap⟩ := ih
      have hSlice : ∀ st chain inst rest i j cs,
          core (injectSliceElems (fuel + 1) st chain inst rest i j cs).2.1 = core st ∧
          chainLe chain (injectSliceElems (fuel + 1) st chain inst rest i j cs).2.2 := by
        intro st chain inst rest i j cs
        cases cs with
        | nil => simpa [injectSliceElems] using ihFields st chain inst rest
        | cons b more =>
            by_cases hreq : getDA st.scopes b "" = Request
            · simp [injectSliceElems, hreq, chainLe_refl]
            · rcases hG : getInstance fuel st chain b with ⟨rg, st1, chain1⟩
              have hGc := ihGet st chain b
              rw [hG] at hGc
              cases rg with
              | err e => simp [injectSliceElems, hreq, hG]; exact hGc
              | out => simp [injectSliceElems, hreq, hG]; exact hGc
              | ok v =>
                  have hRest := ihSlice (heapSetSliceIdx st1 inst.addr i j v) chain1 inst rest i (j + 1) more
                  simp [injectSliceElems, hreq, hG]
                  refine ⟨?_, chainLe_trans hGc.2 hRest.2⟩
                  rw [hRest.1, core_heapSetSliceIdx, hGc.1]
      have hMap : ∀ st chain inst rest i cs,
          core (injectMapElems (fuel + 1) st chain inst rest i cs).2.1 = core st ∧
          chainLe chain (injectMapElems (fuel + 1) st chain inst rest i cs).2.2 := by
        intro st chain inst rest i cs
        cases cs with
        | nil => simpa [injectMapElems] using ihFields st chain inst rest
        | cons b more =>
            by_cases hreq : getDA st.scopes b "" = Request
            · simp [injectMapElems, hreq, chainLe_refl]
            · rcases hG : getInstance fuel st chain b with ⟨rg, st1, chain1⟩
              have hGc := ihGet st chain b
              rw [hG] at hGc
              cases rg with
              | err e => simp [injectMapElems, hreq, hG]; exact hGc
              | out => simp [injectMapElems, hreq, hG]; exact hGc
              | ok v =>
                  have hRest := ihMap (heapSetMapKey st1 inst.addr i b v) chain1 inst rest i more
                  simp [injectMapElems, hreq, hG]
                  refine ⟨?_, chainLe_trans hGc.2 hRest.2⟩
                  rw [hRest.1, core_heapSetMapKey, hGc.1]
      have hSingle : ∀ st chain inst rest i opt b,
          core (injectSingle (fuel + 1) st chain inst rest i opt b).2.1 = core st ∧
          chainLe chain (injectSingle (fuel + 1) st chain inst rest i opt b).2.2 := by
        intro st chain inst rest i opt b
        cases hS : lookupA st.scopes b with
        | none =>
            cases opt with
            | true => simpa [injectSingle, hS] using ihFields st chain inst rest
            | false => simp [injectSingle, hS, chainLe_refl]
        | some sc =>
            by_cases hreq : sc = Request
            · simp [injectSingle, hS, hreq, chainLe_refl]
            · rcases hG : getInstance fuel st chain b with ⟨rg, st1, chain1⟩
              have hGc := ihGet st chain b
              rw [hG] at hGc
              cases rg with
              | err e => simp [injectSingle, hS, hreq, hG]; exact hGc
              | out => simp [injectSingle, hS, hreq, hG]; exact hGc
              | ok v =>
                  have hRest := ihFields (heapSetField st1 inst.addr i (FieldVal.ref v)) chain1 inst rest
                  simp [injectSingle, hS, hreq, hG]
                  refine ⟨?_, chainLe_trans hGc.2 hRest.2⟩
                  rw [hRest.1, core_heapSetField, hGc.1]
      have hFields : ∀ st chain inst l,
          core (injectFields (fuel + 1) st chain inst l).2.1 = core st ∧
          chainLe chain (injectFields (fuel + 1) st chain inst l).2.2 := by
        intro st chain inst l
        cases l with
        | nil => exact ⟨rfl, chainLe_refl chain⟩
        | cons p rest =>
            obtain ⟨i, field⟩ := p
            cases hTag : field.injectTag with
            | none => simpa [injectFields, hTag] using ihFields st chain inst rest
            | some b =>
                cases hOpt : isOptional field with
                | error e => simp [injectFields, hTag, hOpt, chainLe_refl]
                | ok opt =>
                    cases hK : field.kind with
                    | ptr =>
                        by_cases hb : b = ""
                        · subst hb
                          by_cases hc1 : (findInjectionCandidates st field.tyId).length < 1
                          · cases opt with
                            | true =>
                                simpa [injectFields, hTag, hOpt, hK, hc1] using
                                  ihFields st chain inst rest
                            | false => simp [injectFields, hTag, hOpt, hK, hc1, chainLe_refl]
                          · by_cases hc2 : (findInjectionCandidates st field.tyId).length > 1
                            · simp [injectFields, hTag, hOpt, hK, hc1, hc2, chainLe_refl]
                            · simpa [injectFields, hTag, hOpt, hK, hc1, hc2] using
                                ihSingle st chain inst rest i opt
                                  ((findInjectionCandidates st field.tyId).headD "")
                        · simpa [injectFields, hTag, hOpt, hK, hb] using
                            ihSingle st chain inst rest i opt b
                    | iface =>
                        by_cases hb : b = ""
                        · subst hb
                          by_cases hc1 : (findInjectionCandidates st field.tyId).length < 1
                          · cases opt with
                            | true =>
                                simpa [injectFields, hTag, hOpt, hK, hc1] using
                                  ihFields st chain inst rest
                            | false => simp [injectFields, hTag, hOpt, hK, hc1, chainLe_refl]
                          · by_cases hc2 : (findInjectionCandidates st field.tyId).length > 1
                            · simp [injectFields, hTag, hOpt, hK, hc1, hc2, chainLe_refl]
                            · simpa [injectFields, hTag, hOpt, hK, hc1, hc2] using
                                ihSingle st chain inst rest i opt
                                  ((findInjectionCandidates st field.tyId).headD "")
                        · simpa [injectFields, hTag, hOpt, hK, hb] using
                            ihSingle st chain inst rest i opt b
                    | slice =>
                        by_cases hek : field.elemKind ≠ Kind.ptr ∧ field.elemKind ≠ Kind.iface
                        · simp [injectFields, hTag, hOpt, hK, hek, chainLe_refl]
                        · by_cases hc1 : (findInjectionCandidates st field.elemTyId).length < 1
                          · cases opt with
                            | true =>
                                simpa [injectFields, hTag, hOpt, hK, hek, hc1] using
                                  ihFields st chain inst rest
                            | false =>
                                have h := ihFields
                                  (heapSetField st inst.addr i (FieldVal.sliceV [])) chain inst rest
                                simp [injectFields, hTag, hOpt, hK, hek, hc1]
                                exact ⟨by rw [h.1, core_heapSetField], h.2⟩
                          · have h := ihSlice
                              (heapSetField st inst.addr i
                                (FieldVal.sliceV (List.replicate
                                  (findInjectionCandidates st field.elemTyId).length none)))
                              chain inst rest i 0 (findInjectionCandidates st field.elemTyId)
                            simp [injectFields, hTag, hOpt, hK, hek, hc1]
                            exact ⟨by rw [h.1, core_heapSetField], h.2⟩
                    | mapk =>
                        by_cases hek : field.elemKind ≠ Kind.ptr ∧ field.elemKind ≠ Kind.iface
                        · simp [injectFields, hTag, hOpt, hK, hek, chainLe_refl]
                        · by_cases hc1 : (findInjectionCandidates st field.elemTyId).length < 1
                          · cases opt with
                            | true =>
                                simpa [injectFields, hTag, hOpt, hK, hek, hc1] using
                                  ihFields st chain inst rest
                            | false =>
                                have h := ihFields
                                  (heapSetField st inst.addr i (FieldVal.mapV [])) chain inst rest
                                simp [injectFields, hTag, hOpt, hK, hek, hc1]
                                exact ⟨by rw [h.1, core_heapSetField], h.2⟩
                          · have h := ihMap
                              (heapSetField st inst.addr i (FieldVal.mapV []))
                              chain inst rest i (findInjectionCandidates st field.elemTyId)
                            simp [injectFields, hTag, hOpt, hK, hek, hc1]
                            exact ⟨by rw [h.1, core_heapSetField], h.2⟩
                    | strk => simp [injectFields, hTag, hOpt, hK, chainLe_refl]
                    | intk => simp [injectFields, hTag, hOpt, hK, chainLe_refl]
      have hDeps : ∀ st chain beanID inst,
          core (injectDependencies (fuel + 1) st chain beanID inst).2.1 = core st ∧
          chainLe chain (injectDependencies (fuel + 1) st chain beanID inst).2.2 := by
        intro st chain beanID inst
        simpa [injectDependencies] using
          ihFields st chain inst ((getDA st.beans beanID zeroType).fields.enum)
      have hGet : ∀ st chain beanID,
          core (getInstance (fuel + 1) st chain beanID).2.1 = core st ∧
          chainLe chain (getInstance (fuel + 1) st chain beanID).2.2 := by
        intro st chain beanID
        by_cases h1 : isBeanRegistered st beanID = true
        · by_cases h2 : getDA st.scopes beanID "" = Singleton
          · simp [getInstance, h1, h2, chainLe_refl]
          · by_cases h3 : getDA chain beanID 0 > 1
            · simp [getInstance, h1, h2, h3, chainLe_refl]
            · rcases hC : createInstance st beanID with ⟨rc, st1⟩
              have hCc : core st1 = core st := by
                have h := core_createInstance st beanID
                rw [hC] at h; exact h
              have hBump := chainLe_bump chain beanID
              cases rc with
              | error e =>
                  simp [getInstance, h1, h2, h3, hC]
                  exact ⟨hCc, hBump⟩
              | ok inst =>
                  by_cases hF : memA st1.beanFactories beanID = true
                  · cases hInit : initializeInstance st1 beanID inst with
                    | error e =>
                        simp [getInstance, h1, h2, h3, hC, hF, hInit]
                        exact ⟨hCc, hBump⟩
                    | ok u =>
                        simp [getInstance, h1, h2, h3, hC, hF, hInit, setContext]
                        exact ⟨hCc, hBump⟩
                  · rcases hI : injectDependencies fuel st1
                        (upsertA chain beanID (getDA chain beanID 0 + 1)) beanID inst with
                      ⟨ri, st2, chain2⟩
                    have hIc := ihDeps st1
                      (upsertA chain beanID (getDA chain beanID 0 + 1)) beanID inst
                    rw [hI] at hIc
                    have hCore2 : core st2 = core st := by rw [hIc.1, hCc]
                    have hChain2 := chainLe_trans hBump hIc.2
                    cases ri with
                    | err e =>
                        simp [getInstance, h1, h2, h3, hC, hF, hI]
                        exact ⟨hCore2, hChain2⟩
                    | out =>
                        simp [getInstance, h1, h2, h3, hC, hF, hI]
                        exact ⟨hCore2, hChain2⟩
                    | ok u =>
                        cases hInit : initializeInstance st2 beanID inst with
                        | error e =>
                            simp [getInstance, h1, h2, h3, hC, hF, hI, hInit]
                            exact ⟨hCore2, hChain2⟩
                        | ok u2 =>
                            simp [getInstance, h1, h2, h3, hC, hF, hI, hInit, setContext]
                            exact ⟨hCore2, hChain2⟩
        · simp [getInstance, h1, chainLe_refl]
      exact ⟨hGet, hDeps, hFields, hSingle, hSlice, hMap⟩

/-- C7: the container state machine gates every operation uniformly: a
lookup through `GetInstanceSafe` while the container is Uninitialized
returns the "container is not initialized" state error (never a nil
instance without an error), and every registration operation invoked while
the container is initialized returns the corresponding "container is
already initialized" state error and leaves the whole state unchanged. -/
theorem c7_state_machine_gating :
    (∀ fuel st beanID, st.containerInitialized = false →
        GetInstanceSafe fuel st beanID =
          (Res.err "container is not initialized: can\x27t lookup instances of beans yet", st)) ∧
    (∀ st beanID beanType, st.containerInitialized = true →
        RegisterBean st beanID beanType =
          ((false, some "container is already initialized: can\x27t register new bean"), st)) ∧
    (∀ st beanID inst, st.containerInitialized = true →
        RegisterBeanInstance st beanID inst =
          ((false, some "container is already initialized: can\x27t register new bean"), st)) ∧
    (∀ st beanID beanScope beanFactory, st.containerInitialized = true →
        RegisterBeanFactory st beanID beanScope beanFactory =
          ((false, some "container is already initialized: can\x27t register new bean factory"), st)) ∧
    (∀ st beanTypeId pp, st.containerInitialized = true →
        RegisterBeanPostprocessor st beanTypeId pp =
          (some "container is already initialized: can\x27t register bean postprocessor", st)) := by
  refine ⟨?_, ?_, ?_, ?_, ?_⟩ <;> intros <;>
    simp_all [GetInstanceSafe, RegisterBean, RegisterBeanInstance,
      RegisterBeanFactory, RegisterBeanPostprocessor]

/-- Witness for C7 at concrete inputs. -/
theorem c7_witness :
    GetInstanceSafe 5 initialState "a" =
      (Res.err "container is not initialized: can\x27t lookup instances of beans yet", initialState) ∧
    RegisterBean initializedState "a" strPtrTy =
      ((false, some "container is already initialized: can\x27t register new bean"), initializedState) ∧
    RegisterBeanInstance initializedState "a" ⟨7, strPtrTy⟩ =
      ((false, some "container is already initialized: can\x27t register new bean"), initializedState) ∧
    RegisterBeanFactory initializedState "a" Singleton okFactory =
      ((false, some "container is already initialized: can\x27t register new bean factory"), initializedState) ∧
    RegisterBeanPostprocessor initializedState 3 none =
      (some "container is already initialized: can\x27t register bean postprocessor", initializedState) :=
  ⟨c7_state_machine_gating.1 5 initialState "a" rfl,
   c7_state_machine_gating.2.1 initializedState "a" strPtrTy rfl,
   c7_state_machine_gating.2.2.1 initializedState "a" ⟨7, strPtrTy⟩ rfl,
   c7_state_machine_gating.2.2.2.1 initializedState "a" Singleton okFactory rfl,
   c7_state_machine_gating.2.2.2.2 initializedState 3 none rfl⟩

/-- C8: a Request-scoped bean id is rejected with an error on direct
retrieval through `GetInstanceSafe` (and hence `GetInstance`, which
panics with the same error), and injection of a dependency registered
with Request scope is rejected unconditionally — whenever the scope table
maps the target to Request, regardless of optionality — with the
request-scope error. -/
theorem c8_request_scope_rejection :
    (∀ fuel st beanID, st.containerInitialized = true →
        getDA st.scopes beanID "" = Request →
        GetInstanceSafe fuel st beanID =
          (Res.err "request-scoped beans can\x27t be retrieved directly from the container: they can only be retrieved from the web-context", st) ∧
        GetInstance fuel st beanID =
          (Res.err "request-scoped beans can\x27t be retrieved directly from the container: they can only be retrieved from the web-context", st)) ∧
    (∀ fuel st chain inst rest i opt beanToInject,
        lookupA st.scopes beanToInject = some Request →
        injectSingle (fuel + 1) st chain inst rest i opt beanToInject =
          (Res.err requestScopedBeansCantBeInjected, st, chain)) ∧
    (∀ fuel st chain inst rest i field beanToInject opt,
        field.injectTag = some beanToInject → beanToInject ≠ "" →
        (field.kind = Kind.ptr ∨ field.kind = Kind.iface) →
        isOptional field = Except.ok opt →
        injectFields (fuel + 1) st chain inst ((i, field) :: rest) =
          injectSingle fuel st chain inst rest i opt beanToInject) := by
  refine ⟨?_, ?_, ?_⟩
  · intro fuel st beanID h1 h2
    constructor <;> simp [GetInstance, GetInstanceSafe, h1, h2]
  · intro fuel st chain inst rest i opt beanToInject h
    simp [injectSingle, h]
  · intro fuel st chain inst rest i field beanToInject opt hTag hb hK hOpt
    rcases hK with hK | hK <;> simp [injectFields, hTag, hb, hK, hOpt]

/-- Witness for C8 at concrete inputs. -/
theorem c8_witness :
    GetInstanceSafe 10 reqSt "x" =
      (Res.err "request-scoped beans can\x27t be retrieved directly from the container: they can only be retrieved from the web-context", reqSt) ∧
    injectSingle 4 reqSt [] ⟨7, strPtrTy⟩ [] 0 true "x" =
      (Res.err requestScopedBeansCantBeInjected, reqSt, []) ∧
    injectFields 4 reqSt [] ⟨7, strPtrTy⟩ [(0, mkInjField "x" none)] =
      injectSingle 3 reqSt [] ⟨7, strPtrTy⟩ [] 0 false "x" :=
  ⟨(c8_request_scope_rejection.1 10 reqSt "x" (by decide) (by decide)).1,
   c8_request_scope_rejection.2.1 3 reqSt [] ⟨7, strPtrTy⟩ [] 0 true "x" (by decide),
   c8_request_scope_rejection.2.2 3 reqSt [] ⟨7, strPtrTy⟩ [] 0 (mkInjField "x" none) "x" false
     rfl (by decide) (Or.inl rfl) rfl⟩

/-- C1: for Prototype/Request-scoped resolution, once the chain counter
reports the id as active (counter above the tolerance threshold), the
resolution fails with a circular-dependency error naming that id; a
Singleton bean returns its cached instance before any chain bookkeeping,
so it never re-enters the chain.  Concretely, a Prototype bean injecting
itself fails `GetInstanceSafe` with the cycle error naming it, while the
identical configuration under Singleton scope resolves successfully. -/
theorem c1_cycle_detection :
    (∀ fuel st chain beanID, isBeanRegistered st beanID = true →
        getDA st.scopes beanID "" ≠ Singleton → getDA chain beanID 0 > 1 →
        getInstance (fuel + 1) st chain beanID =
          (Res.err ("circular dependency detected for bean: " ++ beanID), st, chain)) ∧
    (∀ fuel st chain beanID, isBeanRegistered st beanID = true →
        getDA st.scopes beanID "" = Singleton →
        getInstance (fuel + 1) st chain beanID =
          (Res.ok (getDA st.singletonInstances beanID nilInstance), st, chain)) ∧
    (GetInstanceSafe 20 cycSt "a").1 = Res.err "circular dependency detected for bean: a" ∧
    (GetInstanceSafe 20 singSt "a").1 = Res.ok ⟨1, selfRefSingTy⟩ := by
  refine ⟨?_, ?_, ?_, ?_⟩
  · intro fuel st chain beanID h1 h2 h3
    simp [getInstance, h1, h2, h3]
  · intro fuel st chain beanID h1 h2
    simp [getInstance, h1, h2]
  · set_option maxHeartbeats 2000000 in decide
  · set_option maxHeartbeats 2000000 in decide

/-- Witness for C1 at concrete inputs. -/
theorem c1_witness :
    getInstance 5 cycSt [("a", 2)] "a" =
      (Res.err "circular dependency detected for bean: a", cycSt, [("a", 2)]) ∧
    getInstance 5 singSt [] "a" = (Res.ok ⟨1, selfRefSingTy⟩, singSt, []) :=
  ⟨c1_cycle_detection.1 4 cycSt [("a", 2)] "a" (by decide) (by decide) (by decide),
   (c1_cycle_detection.2.1 4 singSt [] "a" (by decide) (by decide)).trans (by decide)⟩

/-- C6: after successful initialization, looking up a Singleton bean
returns the cached instance and leaves the state (hence the factory
invocation counts) untouched, so repeated `GetInstanceSafe` calls all
return the identical instance; in the concrete factory scenario the
factory for `F` has been invoked exactly once during initialization and
still exactly once after two subsequent lookups. -/
theorem c6_singleton_identity :
    (∀ fuel st beanID, st.containerInitialized = true →
        isBeanRegistered st beanID = true →
        getDA st.scopes beanID "" = Singleton →
        GetInstanceSafe (fuel + 1) st beanID =
          (Res.ok (getDA st.singletonInstances beanID nilInstance), st)) ∧
    (InitializeContainer 10 stF0).1 = Res.ok () ∧
    getDA stF1.factoryCalls "F" 0 = 1 ∧
    GetInstanceSafe 10 stF1 "F" = (Res.ok ⟨1, strPtrTy⟩, stF1) ∧
    (GetInstanceSafe 10 ((GetInstanceSafe 10 stF1 "F").2) "F").1 = Res.ok ⟨1, strPtrTy⟩ ∧
    getDA ((GetInstanceSafe 10 ((GetInstanceSafe 10 stF1 "F").2) "F").2).factoryCalls "F" 0 = 1 := by
  refine ⟨?_, ?_, ?_, ?_, ?_, ?_⟩
  · intro fuel st beanID h1 h2 h3
    have hne : Singleton ≠ Request := by decide
    simp [GetInstanceSafe, h1, h3, hne, getInstance, h2]
  · decide
  · decide
  · decide
  · decide
  · decide

/-- Witness for C6 at concrete inputs. -/
theorem c6_witness :
    GetInstanceSafe 10 stF1 "F" =
      (Res.ok (getDA stF1.singletonInstances "F" nilInstance), stF1) :=
  c6_singleton_identity.1 9 stF1 "F" (by decide) (by decide) (by decide)

theorem flag_of_core {st1 st2 : St} (h : core st1 = core st2) :
    st1.containerInitialized = st2.containerInitialized :=
  congrArg (fun t => t.1) h

theorem closeInstances_closedCalls_mono :
    ∀ (l : List (String × Instance)) (st : St) (x : Nat),
      x ∈ st.closedCalls → x ∈ (closeInstances st l).closedCalls := by
  intro l
  induction l with
  | nil => intro st x h; simpa [closeInstances] using h
  | cons p rest ih =>
      intro st x h
      obtain ⟨n, inst⟩ := p
      by_cases hc : inst.ty.hasCloser = true
      · cases hE : inst.ty.closeErr with
        | none =>
            simp [closeInstances, hc, hE]
            exact ih _ x (by simp [h])
        | some e =>
            simp [closeInstances, hc, hE]
            exact ih _ x (by simp [h])
      · simp [closeInstances, hc]
        exact ih st x h

theorem closeInstances_logged_mono :
    ∀ (l : List (String × Instance)) (st : St) (e : String),
      e ∈ st.loggedCloseErrors → e ∈ (closeInstances st l).loggedCloseErrors := by
  intro l
  induction l with
  | nil => intro st e h; simpa [closeInstances] using h
  | cons p rest ih =>
      intro st e h
      obtain ⟨n, inst⟩ := p
      by_cases hc : inst.ty.hasCloser = true
      · cases hE : inst.ty.closeErr with
        | none =>
            simp [closeInstances, hc, hE]
            exact ih _ e h
        | some e2 =>
            simp [closeInstances, hc, hE]
            exact ih _ e (by simp [h])
      · simp [closeInstances, hc]
        exact ih st e h

theorem closeInstances_closes :
    ∀ (l : List (String × Instance)) (st : St) (p : String × Instance),
      p ∈ l → p.2.ty.hasCloser = true →
      p.2.addr ∈ (closeInstances st l).closedCalls := by
  intro l
  induction l with
  | nil => intro st p h; cases h
  | cons q rest ih =>
      intro st p hmem hc
      obtain ⟨n, inst⟩ := q
      rcases List.mem_cons.mp hmem with hhead | htail
      · subst hhead
        replace hc : inst.ty.hasCloser = true := hc
        cases hE : inst.ty.closeErr with
        | none =>
            simp [closeInstances, hc, hE]
            exact closeInstances_closedCalls_mono rest _ _ (by simp)
        | some e =>
            simp [closeInstances, hc, hE]
            exact closeInstances_closedCalls_mono rest _ _ (by simp)
      · by_cases hc2 : inst.ty.hasCloser = true
        · cases hE : inst.ty.closeErr with
          | none => simp [closeInstances, hc2, hE]; exact ih _ p htail hc
          | some e => simp [closeInstances, hc2, hE]; exact ih _ p htail hc
        · simp [closeInstances, hc2]; exact ih st p htail hc

theorem closeInstances_logs :
    ∀ (l : List (String × Instance)) (st : St) (p : String × Instance) (e : String),
      p ∈ l → p.2.ty.hasCloser = true → p.2.ty.closeErr = some e →
      e ∈ (closeInstances st l).loggedCloseErrors := by
  intro l
  induction l with
  | nil => intro st p e h; cases h
  | cons q rest ih =>
      intro st p e hmem hc hE
      obtain ⟨n, inst⟩ := q
      rcases List.mem_cons.mp hmem with hhead | htail
      · subst hhead
        replace hc : inst.ty.hasCloser = true := hc
        replace hE : inst.ty.closeErr = some e := hE
        simp [closeInstances, hc, hE]
        exact closeInstances_logged_mono rest _ _ (by simp)
      · by_cases hc2 : inst.ty.hasCloser = true
        · cases hE2 : inst.ty.closeErr with
          | none => simp [closeInstances, hc2, hE2]; exact ih _ p e htail hc hE
          | some e2 => simp [closeInstances, hc2, hE2]; exact ih _ p e htail hc hE
        · simp [closeInstances, hc2]; exact ih st p e htail hc hE

/-- C9: `Close` attempts the closing capability on every cached singleton
instance that exposes it (an error from one instance is logged and does
not prevent any other instance from being closed), then clears the whole
registry and returns the state machine to Uninitialized; `Close` itself
returns no error. -/
theorem c9_close_best_effort : ∀ st : St,
    (∀ p, p ∈ st.singletonInstances → p.2.ty.hasCloser = true →
        p.2.addr ∈ (Close st).closedCalls) ∧
    (∀ p e, p ∈ st.singletonInstances → p.2.ty.hasCloser = true →
        p.2.ty.closeErr = some e → e ∈ (Close st).loggedCloseErrors) ∧
    (Close st).containerInitialized = false ∧
    (Close st).beans = [] ∧
    (Close st).beanFactories = [] ∧
    (Close st).scopes = [] ∧
    (Close st).singletonInstances = [] ∧
    (Close st).userCreatedInstances = [] ∧
    (Close st).beanPostprocessors = [] := by
  intro st
  refine ⟨?_, ?_, rfl, rfl, rfl, rfl, rfl, rfl, rfl⟩
  · intro p hmem hc
    exact closeInstances_closes st.singletonInstances st p hmem hc
  · intro p e hmem hc hE
    exact closeInstances_logs st.singletonInstances st p e hmem hc hE

/-- Witness for C9: both closeable instances are closed and the failing
close is logged while the other is still processed. -/
theorem c9_witness :
    (201 : Nat) ∈ (Close c9St).closedCalls ∧
    (202 : Nat) ∈ (Close c9St).closedCalls ∧
    "close boom" ∈ (Close c9St).loggedCloseErrors ∧
    (Close c9St).containerInitialized = false :=
  ⟨(c9_close_best_effort c9St).1 ("a", ⟨201, closerTyBad⟩) (by decide) rfl,
   (c9_close_best_effort c9St).1 ("b", ⟨202, closerTyOk⟩) (by decide) rfl,
   (c9_close_best_effort c9St).2.1 ("a", ⟨201, closerTyBad⟩) "close boom" (by decide) rfl rfl,
   (c9_close_best_effort c9St).2.2.1⟩

theorem flag_createTypedSingletons : ∀ (l : List (String × GoType)) (st : St),
    ((createTypedSingletons st l).2).containerInitialized = st.containerInitialized := by
  intro l
  induction l with
  | nil => intro st; rfl
  | cons p rest ih =>
      intro st
      obtain ⟨beanID, ty⟩ := p
      by_cases h1 : getDA st.scopes beanID "" = Singleton
      · by_cases h2 : memA st.userCreatedInstances beanID = true
        · simp [createTypedSingletons, h1, h2, ih st]
        · rcases hC : createInstance st beanID with ⟨rc, st1⟩
          have hFlag : st1.containerInitialized = st.containerInitialized := by
            have h := core_createInstance st beanID
            rw [hC] at h
            exact flag_of_core h
          cases rc with
          | error e => simp [createTypedSingletons, h1, h2, hC, hFlag]
          | ok inst =>
              simp [createTypedSingletons, h1, h2, hC]
              rw [ih]
              exact hFlag
      · simp [createTypedSingletons, h1, ih st]

theorem flag_createFactorySingletons : ∀ (l : List (String × FactorySpec)) (st : St),
    ((createFactorySingletons st l).2).containerInitialized = st.containerInitialized := by
  intro l
  induction l with
  | nil => intro st; rfl
  | cons p rest ih =>
      intro st
      obtain ⟨beanID, f⟩ := p
      by_cases h1 : getDA st.scopes beanID "" = Singleton
      · rcases hC : callFactory st beanID f with ⟨rc, st1⟩
        have hFlag : st1.containerInitialized = st.containerInitialized := by
          have h := core_callFactory st beanID f
          rw [hC] at h
          exact flag_of_core h
        cases rc with
        | error e => simp [createFactorySingletons, h1, hC, hFlag]
        | ok inst =>
            simp [createFactorySingletons, h1, hC]
            rw [ih]
            exact hFlag
      · simp [createFactorySingletons, h1, ih st]

theorem flag_createSingletonInstances (st : St) :
    ((createSingletonInstances st).2).containerInitialized = st.containerInitialized := by
  unfold createSingletonInstances
  rcases hT : createTypedSingletons st st.beans with ⟨rt, st1⟩
  have h1 : st1.containerInitialized = st.containerInitialized := by
    have h := flag_createTypedSingletons st.beans st
    rw [hT] at h
    exact h
  cases rt with
  | error e => simpa [hT] using h1
  | ok u =>
      have h2 := flag_createFactorySingletons st1.beanFactories st1
      simp [hT]
      rw [h2]
      exact h1

theorem flag_injectSingletonList (fuel : Nat) : ∀ (l : List (String × Instance)) (st : St),
    ((injectSingletonList fuel st l).2).containerInitialized = st.containerInitialized := by
  intro l
  induction l with
  | nil => intro st; rfl
  | cons p rest ih =>
      intro st
      obtain ⟨beanID, inst⟩ := p
      by_cases h1 : memA st.userCreatedInstances beanID = true
      · simp [injectSingletonList, h1, ih st]
      · by_cases h2 : memA st.beanFactories beanID = true
        · simp [injectSingletonList, h1, h2, ih st]
        · rcases hI : injectDependencies fuel st [] beanID inst with ⟨ri, st1, chain1⟩
          have hFlag : st1.containerInitialized = st.containerInitialized := by
            have h := ((resolveInv fuel).2.1 st [] beanID inst).1
            rw [hI] at h
            exact flag_of_core h
          cases ri with
          | err e => simp [injectSingletonList, h1, h2, hI, hFlag]
          | out => simp [injectSingletonList, h1, h2, hI, hFlag]
          | ok u =>
              simp [injectSingletonList, h1, h2, hI]
              rw [ih]
              exact hFlag

theorem flag_injectSingletonDependencies (fuel : Nat) (st : St) :
    ((injectSingletonDependencies fuel st).2).containerInitialized = st.containerInitialized :=
  flag_injectSingletonList fuel st.singletonInstances st

/-- C2 counterexample: with a Singleton bean whose `PostConstruct` hook
fails, `InitializeContainer` returns the error, yet the container is left
with the initialized flag set — not Uninitialized as claimed. -/
theorem c2_counterexample :
    (InitializeContainer 10 c2St0).1 = Res.err "post-construct failed" ∧
    (InitializeContainer 10 c2St0).2.containerInitialized = true := by
  constructor <;> decide

/-- C2 as amended: an error during eager singleton creation or during
dependency injection of the eager instances makes `InitializeContainer`
return that error with the container still Uninitialized; an error from
the post-construction pipeline is returned as well, but only after the
initialized flag has already been flipped, so the container is left
flagged initialized. -/
theorem c2_amended (fuel : Nat) (st : St) (h : st.containerInitialized = false) :
    (∀ e st1, createSingletonInstances st = (Except.error e, st1) →
        InitializeContainer fuel st = (Res.err e, st1) ∧
        st1.containerInitialized = false) ∧
    (∀ st1 e st2, createSingletonInstances st = (Except.ok (), st1) →
        injectSingletonDependencies fuel st1 = (Res.err e, st2) →
        InitializeContainer fuel st = (Res.err e, st2) ∧
        st2.containerInitialized = false) ∧
    (∀ st1 st2 e, createSingletonInstances st = (Except.ok (), st1) →
        injectSingletonDependencies fuel st1 = (Res.ok (), st2) →
        initializeSingletonInstances { st2 with containerInitialized := true } =
          Except.error e →
        InitializeContainer fuel st =
          (Res.err e, { st2 with containerInitialized := true })) := by
  refine ⟨?_, ?_, ?_⟩
  · intro e st1 hC
    constructor
    · simp [InitializeContainer, h, hC]
    · have hf := flag_createSingletonInstances st
      rw [hC] at hf
      rw [hf]
      exact h
  · intro st1 e st2 hC hI
    constructor
    · simp [InitializeContainer, h, hC, hI]
    · have hf1 := flag_createSingletonInstances st
      rw [hC] at hf1
      have hf2 := flag_injectSingletonDependencies fuel st1
      rw [hI] at hf2
      rw [hf2, hf1]
      exact h
  · intro st1 st2 e hC hI hP
    simp [InitializeContainer, h, hC, hI, hP]

/-- Witness for C2 (amended) at concrete inputs: a failing factory aborts
creation leaving the flag down, and a failing `PostConstruct` is returned
with the flag already up. -/
theorem c2_witness :
    (InitializeContainer 10 badCreateSt =
        (Res.err "factory boom", (createSingletonInstances badCreateSt).2) ∧
      ((createSingletonInstances badCreateSt).2).containerInitialized = false) ∧
    InitializeContainer 10 c2St0 =
      (Res.err "post-construct failed",
        { (injectSingletonDependencies 10 (createSingletonInstances c2St0).2).2 with
            containerInitialized := true }) :=
  ⟨(c2_amended 10 badCreateSt rfl).1 "factory boom"
      (createSingletonInstances badCreateSt).2 rfl,
   (c2_amended 10 c2St0 rfl).2.2 (createSingletonInstances c2St0).2
      (injectSingletonDependencies 10 (createSingletonInstances c2St0).2).2
      "post-construct failed" rfl rfl rfl⟩

/-- C3 counterexample: registering the same id twice via
`RegisterBeanFactory` reports `overwritten = false` on the second call,
because the overwrite signal is computed from the bean-type table, which
factory registration never writes. -/
theorem c3_counterexample :
    (RegisterBeanFactory ((RegisterBeanFactory initialState "x" Prototype okFactory).2)
        "x" Prototype okFactory).1 = (false, none) := by decide

/-- C3 as amended: a successful registration reports `overwritten` equal
to the presence of the id in the bean-type table (which only
`RegisterBean`/`RegisterBeanInstance` populate, so factory-only
re-registrations report `false`), and it replaces only the tables the
call itself writes — a previously cached singleton instance, user-created
flag or factory for the id is not discarded, as the concrete
instance-then-type scenario shows. -/
theorem c3_amended :
    (∀ st beanID beanType sc, st.containerInitialized = false →
        beanType.kind = Kind.ptr → getScope beanType = Except.ok sc →
        validateInjectFields beanType.fields = none →
        RegisterBean st beanID beanType =
          ((memA st.beans beanID, none),
            { st with beans := upsertA st.beans beanID beanType
                      scopes := upsertA st.scopes beanID sc })) ∧
    (∀ st beanID inst, st.containerInitialized = false → inst.ty.kind = Kind.ptr →
        RegisterBeanInstance st beanID inst =
          ((memA st.beans beanID, none),
            { st with beans := upsertA st.beans beanID inst.ty
                      scopes := upsertA st.scopes beanID Singleton
                      singletonInstances := upsertA st.singletonInstances beanID inst
                      userCreatedInstances := upsertA st.userCreatedInstances beanID true })) ∧
    (∀ st beanID beanScope f, st.containerInitialized = false →
        RegisterBeanFactory st beanID beanScope f =
          ((memA st.beans beanID, none),
            { st with scopes := upsertA st.scopes beanID beanScope
                      beanFactories := upsertA st.beanFactories beanID f })) ∧
    ((RegisterBean ((RegisterBeanInstance initialState "x" ⟨100, mkPtrTy 50 []⟩).2)
        "x" (mkPtrTy 51 [])).1 = (true, none) ∧
      lookupA ((RegisterBean ((RegisterBeanInstance initialState "x" ⟨100, mkPtrTy 50 []⟩).2)
        "x" (mkPtrTy 51 [])).2).beans "x" = some (mkPtrTy 51 []) ∧
      lookupA ((RegisterBean ((RegisterBeanInstance initialState "x" ⟨100, mkPtrTy 50 []⟩).2)
        "x" (mkPtrTy 51 [])).2).singletonInstances "x" = some ⟨100, mkPtrTy 50 []⟩ ∧
      lookupA ((RegisterBean ((RegisterBeanInstance initialState "x" ⟨100, mkPtrTy 50 []⟩).2)
        "x" (mkPtrTy 51 [])).2).userCreatedInstances "x" = some true) := by
  refine ⟨?_, ?_, ?_, ?_⟩
  · intro st beanID beanType sc h1 h2 h3 h4
    simp [RegisterBean, h1, h2, h3, h4]
  · intro st beanID inst h1 h2
    simp [RegisterBeanInstance, h1, h2]
  · intro st beanID beanScope f h1
    simp [RegisterBeanFactory, h1]
  · refine ⟨by decide, by decide, by decide, by decide⟩

/-- Witness for C3 (amended): second type-registration of an id first
registered with an instance reports `overwritten = true`. -/
theorem c3_witness :
    RegisterBean ((RegisterBeanInstance initialState "x" ⟨100, mkPtrTy 50 []⟩).2)
        "x" (mkPtrTy 51 []) =
      ((memA ((RegisterBeanInstance initialState "x" ⟨100, mkPtrTy 50 []⟩).2).beans "x", none),
        { ((RegisterBeanInstance initialState "x" ⟨100, mkPtrTy 50 []⟩).2) with
            beans := upsertA ((RegisterBeanInstance initialState "x" ⟨100, mkPtrTy 50 []⟩).2).beans
              "x" (mkPtrTy 51 [])
            scopes := upsertA ((RegisterBeanInstance initialState "x" ⟨100, mkPtrTy 50 []⟩).2).scopes
              "x" Singleton }) :=
  c3_amended.1 ((RegisterBeanInstance initialState "x" ⟨100, mkPtrTy 50 []⟩).2)
    "x" (mkPtrTy 51 []) Singleton rfl rfl rfl rfl

theorem validateInjectFields_some : ∀ l : List Field,
    (∃ f, f ∈ l ∧ f.injectTag.isSome = true ∧ f.kind ≠ Kind.ptr ∧
      f.kind ≠ Kind.iface ∧ f.kind ≠ Kind.slice ∧ f.kind ≠ Kind.mapk) →
    validateInjectFields l = some unsupportedDependencyType := by
  intro l
  induction l with
  | nil => rintro ⟨f, hf, _⟩; cases hf
  | cons g rest ih =>
      rintro ⟨f, hf, hTag, h1, h2, h3, h4⟩
      rcases List.mem_cons.mp hf with hhead | htail
      · subst hhead
        have hTag2 : ¬ f.injectTag.isNone = true := by
          cases h : f.injectTag
          · rw [h] at hTag; cases hTag
          · simp
        simp [validateInjectFields, hTag2, h1, h2, h3, h4]
      · by_cases hg : g.injectTag.isNone = true
        · simp [validateInjectFields, hg]
          exact ih ⟨f, htail, hTag, h1, h2, h3, h4⟩
        · by_cases hbad : g.kind ≠ Kind.ptr ∧ g.kind ≠ Kind.iface ∧
              g.kind ≠ Kind.slice ∧ g.kind ≠ Kind.mapk
          · simp [validateInjectFields, hg, hbad.1, hbad.2.1, hbad.2.2.1, hbad.2.2.2]
          · simp only [validateInjectFields]
            rw [if_neg hg, if_neg hbad]
            exact ih ⟨f, htail, hTag, h1, h2, h3, h4⟩

/-- C4 counterexample: `RegisterBeanFactory` accepts an unsupported scope
literal without any error — the validation is not performed at the
registration call. -/
theorem c4_counterexample :
    (RegisterBeanFactory initialState "x" "bogus" okFactory).1 = (false, none) := by decide

/-- C4 as amended: the non-reference checks of
`RegisterBean`/`RegisterBeanInstance`, the unsupported-scope-literal check
of the `di.scope` tag, and the unsupported-dependency-kind check of
injection-tagged fields in `RegisterBean` are all returned synchronously
by the registration call; but `RegisterBeanFactory` performs no
validation of its scope argument and (while Uninitialized) never returns
an error. -/
theorem c4_amended :
    (∀ st beanID beanType, st.containerInitialized = false → beanType.kind ≠ Kind.ptr →
        RegisterBean st beanID beanType = ((false, some "bean type must be a pointer"), st)) ∧
    (∀ st beanID inst, st.containerInitialized = false → inst.ty.kind ≠ Kind.ptr →
        RegisterBeanInstance st beanID inst =
          ((false, some "bean instance must be a pointer"), st)) ∧
    (∀ st beanID beanType e, st.containerInitialized = false → beanType.kind = Kind.ptr →
        getScope beanType = Except.error e →
        RegisterBean st beanID beanType = ((false, some e), st)) ∧
    (∀ beanType s, beanType.fields.findSome? (fun field => field.scopeTag) = some s →
        s ≠ Singleton → s ≠ Prototype → s ≠ Request →
        getScope beanType = Except.error ("unsupported scope: " ++ s)) ∧
    (∀ st beanID beanType sc, st.containerInitialized = false → beanType.kind = Kind.ptr →
        getScope beanType = Except.ok sc →
        (∃ f, f ∈ beanType.fields ∧ f.injectTag.isSome = true ∧ f.kind ≠ Kind.ptr ∧
          f.kind ≠ Kind.iface ∧ f.kind ≠ Kind.slice ∧ f.kind ≠ Kind.mapk) →
        RegisterBean st beanID beanType =
          ((false, some unsupportedDependencyType), st)) ∧
    (∀ st beanID beanScope f, st.containerInitialized = false →
        (RegisterBeanFactory st beanID beanScope f).1.2 = none) := by
  refine ⟨?_, ?_, ?_, ?_, ?_, ?_⟩
  · intro st beanID beanType h1 h2
    simp [RegisterBean, h1, h2]
  · intro st beanID inst h1 h2
    simp [RegisterBeanInstance, h1, h2]
  · intro st beanID beanType e h1 h2 h3
    simp [RegisterBean, h1, h2, h3]
  · intro beanType s h1 h2 h3 h4
    simp [getScope, h1, h2, h3, h4]
  · intro st beanID beanType sc h1 h2 h3 hbad
    have hv := validateInjectFields_some beanType.fields hbad
    simp [RegisterBean, h1, h2, h3, hv]
  · intro st beanID beanScope f h1
    simp [RegisterBeanFactory, h1]

/-- Witness for C4 (amended) at concrete inputs. -/
theorem c4_witness :
    RegisterBean initialState "x" { strPtrTy with kind := Kind.strk } =
      ((false, some "bean type must be a pointer"), initialState) ∧
    RegisterBeanInstance initialState "x" ⟨5, { strPtrTy with kind := Kind.iface }⟩ =
      ((false, some "bean instance must be a pointer"), initialState) ∧
    RegisterBean initialState "x" (mkPtrTy 80 [scopeOnlyField "bogus"]) =
      ((false, some "unsupported scope: bogus"), initialState) ∧
    RegisterBean initialState "x"
        (mkPtrTy 81 [{ mkInjField "y" none with kind := Kind.strk }]) =
      ((false, some unsupportedDependencyType), initialState) ∧
    (RegisterBeanFactory initialState "x" "bogus" okFactory).1.2 = none :=
  ⟨c4_amended.1 initialState "x" { strPtrTy with kind := Kind.strk } rfl (by decide),
   c4_amended.2.1 initialState "x" ⟨5, { strPtrTy with kind := Kind.iface }⟩ rfl (by decide),
   c4_amended.2.2.1 initialState "x" (mkPtrTy 80 [scopeOnlyField "bogus"])
     "unsupported scope: bogus" rfl rfl rfl,
   c4_amended.2.2.2.2.1 initialState "x"
     (mkPtrTy 81 [{ mkInjField "y" none with kind := Kind.strk }]) Singleton rfl rfl rfl
     ⟨{ mkInjField "y" none with kind := Kind.strk }, by decide, rfl,
       by decide, by decide, by decide, by decide⟩,
   c4_amended.2.2.2.2.2 initialState "x" "bogus" okFactory rfl⟩

/-- C5: for a single-reference (pointer/interface) injection target with
an empty `di.inject` tag (type-based injection): zero candidates fail
with the no-candidates error unless the field is optional, in which case
the field is skipped (left unset); two or more candidates always fail
with the ambiguity error, optional or not; exactly one candidate is
resolved and stored into the field. -/
theorem c5_type_based_injection :
    ∀ fuel st chain inst i field rest opt,
      field.injectTag = some "" →
      (field.kind = Kind.ptr ∨ field.kind = Kind.iface) →
      isOptional field = Except.ok opt →
      (((findInjectionCandidates st field.tyId).length = 0 → opt = true →
          injectFields (fuel + 2) st chain inst ((i, field) :: rest) =
            injectFields (fuel + 1) st chain inst rest) ∧
        ((findInjectionCandidates st field.tyId).length = 0 → opt = false →
          injectFields (fuel + 2) st chain inst ((i, field) :: rest) =
            (Res.err "no candidates found for the injection", st, chain)) ∧
        ((findInjectionCandidates st field.tyId).length > 1 →
          injectFields (fuel + 2) st chain inst ((i, field) :: rest) =
            (Res.err "more then one candidate found for the injection", st, chain)) ∧
        (∀ c sc v st2 chain2, findInjectionCandidates st field.tyId = [c] →
          lookupA st.scopes c = some sc → sc ≠ Request →
          getInstance fuel st chain c = (Res.ok v, st2, chain2) →
          injectFields (fuel + 2) st chain inst ((i, field) :: rest) =
            injectFields fuel (heapSetField st2 inst.addr i (FieldVal.ref v))
              chain2 inst rest)) := by
  intro fuel st chain inst i field rest opt hTag hK hOpt
  refine ⟨?_, ?_, ?_, ?_⟩
  · intro hc hoptv
    subst hoptv
    rcases hK with hK | hK <;> simp [injectFields, hTag, hOpt, hK, hc]
  · intro hc hoptv
    subst hoptv
    rcases hK with hK | hK <;> simp [injectFields, hTag, hOpt, hK, hc]
  · intro hc
    have hc1 : ¬ (findInjectionCandidates st field.tyId).length < 1 := by omega
    rcases hK with hK | hK <;> simp [injectFields, hTag, hOpt, hK, hc, hc1]
  · intro c sc v st2 chain2 hc hsc hreq hG
    rcases hK with hK | hK <;>
      simp [injectFields, hTag, hOpt, hK, hc, injectSingle, hsc, hreq, hG]

/-- Witness for C5 at concrete inputs: the four cases of type-based
single-reference injection. -/
theorem c5_witness :
    (injectFields 5 initialState [] ⟨7, strPtrTy⟩ [(0, typeField "true")] =
        injectFields 4 initialState [] ⟨7, strPtrTy⟩ []) ∧
    (injectFields 5 initialState [] ⟨7, strPtrTy⟩ [(0, typeField "")] =
        (Res.err "no candidates found for the injection", initialState, [])) ∧
    (injectFields 5 cand2St [] ⟨7, strPtrTy⟩ [(0, typeField "true")] =
        (Res.err "more then one candidate found for the injection", cand2St, [])) ∧
    (injectFields 6 cand1St [] ⟨7, strPtrTy⟩ [(0, typeField "")] =
        injectFields 4
          (heapSetField (getInstance 4 cand1St [] "c1").2.1 7 0
            (FieldVal.ref ⟨1, candTy1⟩))
          (getInstance 4 cand1St [] "c1").2.2 ⟨7, strPtrTy⟩ []) :=
  ⟨(c5_type_based_injection 3 initialState [] ⟨7, strPtrTy⟩ 0 (typeField "true") [] true
      rfl (Or.inl rfl) rfl).1 (by decide) rfl,
   (c5_type_based_injection 3 initialState [] ⟨7, strPtrTy⟩ 0 (typeField "") [] false
      rfl (Or.inl rfl) rfl).2.1 (by decide) rfl,
   (c5_type_based_injection 3 cand2St [] ⟨7, strPtrTy⟩ 0 (typeField "true") [] true
      rfl (Or.inl rfl) rfl).2.2.1 (by decide),
   (c5_type_based_injection 4 cand1St [] ⟨7, strPtrTy⟩ 0 (typeField "") [] false
      rfl (Or.inl rfl) rfl).2.2.2 "c1" Prototype ⟨1, candTy1⟩
      (getInstance 4 cand1St [] "c1").2.1 (getInstance 4 cand1St [] "c1").2.2
      (by decide) (by decide) (by decide) (by decide)⟩

/-- C10: within one top-level resolution the chain counter of a bean id
never decreases — completed subtrees are not rolled back — and therefore
an acyclic configuration (a Prototype leaf `p` reachable through the
three distinct sibling paths `a`, `b`, `c` from root `r`, with every
declared dependency strictly increasing in rank) still fails resolution
with a circular-dependency error naming `p`. -/
theorem c10_chain_never_decremented :
    (∀ fuel st chain beanID k,
        getDA chain k 0 ≤ getDA (getInstance fuel st chain beanID).2.2 k 0) ∧
    c10St.beans.map Prod.fst = ["r"] ∧
    c10St.beanFactories.map Prod.fst = ["p"] ∧
    beanDeps c10St "r" = ["p", "p", "p"] ∧
    (∀ x, x ∈ ["r", "p"] → ∀ y, y ∈ beanDeps c10St x → c10Rank x < c10Rank y) ∧
    (GetInstanceSafe 12 c10St "r").1 = Res.err "circular dependency detected for bean: p" := by
  refine ⟨?_, ?_, ?_, ?_, ?_, ?_⟩
  · intro fuel st chain beanID k
    exact ((resolveInv fuel).1 st chain beanID).2 k
  · decide
  · decide
  · decide
  · decide
  · set_option maxHeartbeats 3000000 in decide

/-- Witness for C10 at concrete inputs. -/
theorem c10_witness :
    getDA [("p", 1)] "p" 0 ≤ getDA (getInstance 5 c10St [("p", 1)] "p").2.2 "p" 0 ∧
    c10Rank "r" < c10Rank "p" :=
  ⟨c10_chain_never_decremented.1 5 c10St [("p", 1)] "p" "p",
   c10_chain_never_decremented.2.2.2.2.1 "r" (by decide) "p" (by decide)⟩

end DI
